import Mathlib

/-!
Verification development for the SSH connection bootstrap and editor settings
controls of this repository.

The embedding is a shallow, executable translation of the two source files:
- crates/recent_projects/src/ssh_connection_modal.rs
- crates/editor/src/editor_settings_controls.rs

The GPUI view machinery (`ViewContext`, `cx.notify`, focus handling, rendering)
is pure presentation plumbing; the state the claims are about is made explicit:
`SshPrompt`'s fields become a record, `oneshot::Sender<Result<String>>`
responders are identified by a `Nat` id, and dropping a responder (which
signals cancellation to its paired receiver) is made observable by returning
the dropped id.  Fallible external steps (subprocesses, release lookup,
window/context operations) become explicit outcome fields of an environment
record, so the control flow of the Rust source is reproduced exactly while the
collaborators stay abstract.
-/

namespace ZedSsh

/-- Substring test over character lists: mirrors Rust's `str::contains` for a
literal needle (true iff the needle occurs contiguously in the haystack). -/
def containsSub (needle : List Char) : List Char → Bool
  | [] => needle.isEmpty
  | c :: rest => needle.isPrefixOf (c :: rest) || containsSub needle rest

/-- `hay` contains `needle` as a substring, as Rust `hay.contains(needle)`. -/
def strContains (hay needle : String) : Bool :=
  containsSub needle.data hay.data

/-- State of `SshPrompt` (ssh_connection_modal.rs, lines 21-26).
`prompt` pairs the prompt message with the responder (`oneshot::Sender`) id;
`editor_text` and `editor_redacted` are the state of the single-line editor
view that the struct owns (its text buffer and its `redact_all` flag). -/
structure SshPromptState where
  host : String
  status_message : Option String
  prompt : Option (String × Nat)
  editor_text : String
  editor_redacted : Bool
deriving DecidableEq, Repr

/-- `SshPrompt::new` (lines 32-40): empty status, no prompt, a fresh
single-line editor (empty text, no redaction). -/
def SshPromptState.new (host : String) : SshPromptState :=
  { host := host
    status_message := none
    prompt := none
    editor_text := ""
    editor_redacted := false }

/-- `SshPrompt::set_prompt` (lines 42-60).  The editor's redaction is set
according to whether the prompt message contains "yes/no"; the new prompt and
responder overwrite `self.prompt` (the Rust assignment drops the previous
`oneshot::Sender`, which cancels its paired receiver — we return the dropped
responder id as the second component); `self.status_message.take()` clears the
status line. -/
def SshPromptState.set_prompt (s : SshPromptState) (prompt : String) (tx : Nat) :
    SshPromptState × Option Nat :=
  let s1 :=
    if strContains prompt "yes/no" then { s with editor_redacted := false }
    else { s with editor_redacted := true }
  let dropped := s1.prompt.map (fun p => p.2)
  ({ s1 with prompt := some (prompt, tx), status_message := none }, dropped)

/-- `SshPrompt::set_status` (lines 62-66): overwrite the status message. -/
def SshPromptState.set_status (s : SshPromptState) (status : Option String) :
    SshPromptState :=
  { s with status_message := status }

/-- `SshPrompt::confirm` (lines 68-75).  If a prompt is pending, its responder
is taken, `tx.send(Ok(editor.text(cx)))` delivers the current editor text, and
the editor is cleared; otherwise nothing happens.  The second component records
the delivery: the responder id paired with the answer it was sent. -/
def SshPromptState.confirm (s : SshPromptState) :
    SshPromptState × Option (Nat × String) :=
  match s.prompt with
  | none => (s, none)
  | some (_, tx) =>
      ({ s with prompt := none, editor_text := "" }, some (tx, s.editor_text))

/-- State of `SshClientDelegate` (lines 134-139), restricted to the field the
claims concern; `window` and `ui` are handles to the collaborators modelled
separately. -/
structure SshClientDelegateState where
  known_password : Option String
deriving DecidableEq, Repr

/-- Outcome of one `ask_password` call: either the responder was immediately
fulfilled with a password, or the prompt was forwarded to the operator via
`SshPrompt::set_prompt`. -/
inductive AskPasswordOutcome where
  | answered (password : String)
  | forwardedToOperator (prompt : String)
deriving DecidableEq, Repr

/-- `SshClientDelegate::ask_password` (lines 142-161).  The Rust body is

    let mut known_password = self.known_password.clone();
    if let Some(password) = known_password.take() {
        tx.send(Ok(password)).ok();
    } else { /* forward prompt to the ui via set_prompt */ }

Note that `take()` is applied to the *local clone* `known_password`, and
`ask_password` receives `&self`, so `self.known_password` itself is never
mutated.  The returned delegate is therefore `self` unchanged. -/
def SshClientDelegateState.ask_password (self : SshClientDelegateState)
    (prompt : String) : SshClientDelegateState × AskPasswordOutcome :=
  let known_password := self.known_password
  match known_password with
  | some password => (self, AskPasswordOutcome.answered password)
  | none => (self, AskPasswordOutcome.forwardedToOperator prompt)

/-- The release channel enumeration (release_channel crate, external to these
files); only equality with `Dev` is inspected here. -/
inductive ReleaseChannel where
  | Dev
  | Nightly
  | Preview
  | Stable
deriving DecidableEq, Repr

/-- The three subprocesses run by the dev-build branch of
`get_server_binary_impl`: `cargo build --package remote_server`,
`strip target/debug/remote_server`, `gzip -9 -f target/debug/remote_server`. -/
inductive Cmd where
  | cargoBuild
  | strip
  | gzip
deriving DecidableEq, Repr

/-- Errors of `get_server_binary_impl`: a subprocess exited non-zero (the
`anyhow!("failed to run command: {:?}", command)` in `run_cmd`, carrying the
failing command), or the release lookup failed (propagated as-is). -/
inductive BinError where
  | buildFailed (c : Cmd)
  | fetchFailed (e : String)
deriving DecidableEq, Repr

/-- Environment of one `get_server_binary_impl` call: everything the function
reads from the app context, the compile-time configuration, the host, and the
outcomes of its external effects.  `debug_assertions` is the
`#[cfg(debug_assertions)]` compile-time flag made explicit; `cargo_build_ok`,
`strip_ok`, `gzip_ok` are the exit statuses of the three subprocesses;
`fetch_result` is what `AutoUpdater::get_latest_remote_server_release` would
return (the path of the fetched artifact, or an error). -/
structure ResolveEnv where
  debug_assertions : Bool
  release_channel : ReleaseChannel
  app_version : Nat × Nat × Nat
  local_os : String
  local_arch : String
  current_dir : String
  cargo_build_ok : Bool
  strip_ok : Bool
  gzip_ok : Bool
  fetch_result : Except String String
deriving Repr

/-- The requested platform, as `SshPlatform { os, arch }`. -/
structure SshPlatform where
  os : String
  arch : String
deriving DecidableEq, Repr

/-- Observable trace of one `get_server_binary_impl` call: the status updates
emitted (in order), the subprocesses run (in order), the release-fetch
invocations made (each with the arguments passed), and the returned value. -/
structure ResolveTrace where
  statuses : List String
  cmds : List Cmd
  fetches : List (String × String × ReleaseChannel)
  result : Except BinError (String × (Nat × Nat × Nat))
deriving Repr

/-- `SshClientDelegate::get_server_binary_impl` (lines 199-245).  It first
reads `(version, release_channel)` from the app context.  Under
`#[cfg(debug_assertions)]`, if the channel is `Dev` and the requested
platform's arch and os equal the host's, it emits a "building" status, runs
`cargo build`, `strip`, `gzip` in that order — `run_cmd(..).await?` aborts at
the first non-zero exit — and returns `current_dir/target/debug/remote_server.gz`
with the running app's version.  Otherwise it emits a "checking" status,
queries the auto-updater once with `(platform.os, platform.arch,
release_channel)`, propagates a lookup error, and returns the fetched path with
the same app version. -/
def get_server_binary_impl (env : ResolveEnv) (platform : SshPlatform) :
    ResolveTrace :=
  let version := env.app_version
  let release_channel := env.release_channel
  if env.debug_assertions = true ∧ release_channel = ReleaseChannel.Dev ∧
      platform.arch = env.local_arch ∧ platform.os = env.local_os then
    let buildStatus := ["building remote server binary from source"]
    if env.cargo_build_ok = false then
      { statuses := buildStatus, cmds := [Cmd.cargoBuild], fetches := []
        result := Except.error (BinError.buildFailed Cmd.cargoBuild) }
    else if env.strip_ok = false then
      { statuses := buildStatus, cmds := [Cmd.cargoBuild, Cmd.strip], fetches := []
        result := Except.error (BinError.buildFailed Cmd.strip) }
    else if env.gzip_ok = false then
      { statuses := buildStatus, cmds := [Cmd.cargoBuild, Cmd.strip, Cmd.gzip]
        fetches := []
        result := Except.error (BinError.buildFailed Cmd.gzip) }
    else
      { statuses := buildStatus, cmds := [Cmd.cargoBuild, Cmd.strip, Cmd.gzip]
        fetches := []
        result := Except.ok
          (env.current_dir ++ "/target/debug/remote_server.gz", version) }
  else
    let checkStatus := ["checking for latest version of remote server"]
    match env.fetch_result with
    | Except.error e =>
        { statuses := checkStatus, cmds := []
          fetches := [(platform.os, platform.arch, release_channel)]
          result := Except.error (BinError.fetchFailed e) }
    | Except.ok binary_path =>
        { statuses := checkStatus, cmds := []
          fetches := [(platform.os, platform.arch, release_channel)]
          result := Except.ok (binary_path, version) }

/-- Errors of `open_ssh_project`, one per fallible step in source order:
reading the window options, opening the window, updating the window to spawn
the connection, the SSH handshake itself, creating the remote project, a
worktree setup failure (with the index of the failing path), replacing the
root view, activating the window. -/
inductive OpenError where
  | optionsFailed
  | openWindowFailed
  | windowUpdateFailed
  | connectFailed (e : String)
  | projectFailed
  | worktreeFailed (i : Nat)
  | replaceRootFailed
  | activateFailed
deriving DecidableEq, Repr

/-- Environment of one `open_ssh_project` call: the outcomes of each external
step.  `connect_result` is the handshake result awaited from
`connect_over_ssh` (the `SshSession` is opaque, so success carries no data);
the worktree outcome for each requested path is supplied with the path list
itself in `open_ssh_project` below. -/
structure OpenEnv where
  options_ok : Bool
  open_window_ok : Bool
  window_update_ok : Bool
  connect_result : Except String Unit
  project_ok : Bool
  replace_root_ok : Bool
  activate_ok : Bool
deriving Repr

/-- Observable outcome of one `open_ssh_project` call: whether a window was
opened for the attempt, whether that window was removed again, and the
function's return value. -/
structure OpenTrace where
  window_opened : Bool
  window_removed : Bool
  result : Except OpenError Unit
deriving Repr

/-- Index of the first `false` in a list of per-path worktree outcomes. -/
def firstFailure : List Bool → Option Nat
  | [] => none
  | b :: rest =>
      if b then (firstFailure rest).map (fun i => i + 1) else some 0

/-- `open_ssh_project` (lines 271-339).  Each `?` of the source is an early
error return; `paths` carries, for each requested path, whether its
`find_or_create_worktree` future succeeds.  The source removes the window
(`window.update(cx, |_, cx| cx.remove_window()).ok()`) only when the awaited
`connect_over_ssh` result is an error; every later failure (`project::Project::ssh`
creation, a worktree future, `replace_root_view`, `activate_window`) returns
the error without touching the window. -/
def open_ssh_project (env : OpenEnv) (paths : List Bool) : OpenTrace :=
  if env.options_ok = false then
    { window_opened := false, window_removed := false
      result := Except.error OpenError.optionsFailed }
  else if env.open_window_ok = false then
    { window_opened := false, window_removed := false
      result := Except.error OpenError.openWindowFailed }
  else if env.window_update_ok = false then
    { window_opened := true, window_removed := false
      result := Except.error OpenError.windowUpdateFailed }
  else
    match env.connect_result with
    | Except.error e =>
        { window_opened := true, window_removed := true
          result := Except.error (OpenError.connectFailed e) }
    | Except.ok _ =>
        if env.project_ok = false then
          { window_opened := true, window_removed := false
            result := Except.error OpenError.projectFailed }
        else
          match firstFailure paths with
          | some i =>
              { window_opened := true, window_removed := false
                result := Except.error (OpenError.worktreeFailed i) }
          | none =>
              if env.replace_root_ok = false then
                { window_opened := true, window_removed := false
                  result := Except.error OpenError.replaceRootFailed }
              else if env.activate_ok = false then
                { window_opened := true, window_removed := false
                  result := Except.error OpenError.activateFailed }
              else
                { window_opened := true, window_removed := false
                  result := Except.ok () }

end ZedSsh

namespace ZedEditor

/-- `InlineBlameSettings` (project crate; its definition and `Default` impl
live outside these files).  The field the control writes is `enabled`; the
remaining fields are carried opaquely and only matter through the `Default`
value that `..Default::default()` supplies, so `apply` below is parametric in
that default record. -/
structure InlineBlameSettings where
  enabled : Bool
  delay_ms : Option Nat
  min_column : Option Nat
deriving DecidableEq, Repr

/-- `InlineGitBlameControl::apply` (editor_settings_controls.rs, lines
282-296), acting on the `settings.git.inline_blame` field.  If an entry
exists, its `enabled` field is set to the supplied value; otherwise a new
entry is created as `InlineBlameSettings { enabled: false, ..Default::default() }`
— note the literal `false`, not the supplied value.  `defaults` stands for the
out-of-file `Default::default()` record. -/
def InlineGitBlameControl.apply (defaults : InlineBlameSettings)
    (inline_blame : Option InlineBlameSettings) (value : Bool) :
    Option InlineBlameSettings :=
  match inline_blame with
  | some ib => some { ib with enabled := value }
  | none => some { defaults with enabled := false }

/-- In-place update of the first "calt" entry of a font-feature list, adding
one at the end when none exists: the meaning of

    if let Some(calt_index) = features.iter().position(|(tag, _)| tag == "calt") {
        features[calt_index].1 = value;
    } else {
        features.push(("calt".into(), value));
    }

in `BufferFontLigaturesControl::apply` (lines 235-239). -/
def setCaltValue (v : Nat) : List (String × Nat) → List (String × Nat)
  | [] => [("calt", v)]
  | (tag, x) :: rest =>
      if tag = "calt" then (tag, v) :: rest
      else (tag, x) :: setCaltValue v rest

/-- `BufferFontLigaturesControl::apply` (lines 216-242), acting on the
`settings.buffer_font_features` field: the boolean becomes 1 or 0, a missing
feature list is treated as empty (`unwrap_or_default`), the first "calt" entry
is updated in place or a new one appended, and the resulting list is stored
back. -/
def BufferFontLigaturesControl.apply
    (buffer_font_features : Option (List (String × Nat))) (value : Bool) :
    Option (List (String × Nat)) :=
  let v : Nat := if value then 1 else 0
  let features := buffer_font_features.getD []
  some (setCaltValue v features)

/-- When no entry is tagged "calt", `setCaltValue` appends one. -/
theorem setCaltValue_of_no_calt (v : Nat) (features : List (String × Nat))
    (h : ∀ p ∈ features, p.1 ≠ "calt") :
    setCaltValue v features = features ++ [("calt", v)] := by
  induction features with
  | nil => rfl
  | cons p rest ih =>
      obtain ⟨tag, x⟩ := p
      have htag : tag ≠ "calt" := h (tag, x) (List.mem_cons_self _ _)
      simp only [setCaltValue, if_neg htag, List.cons_append]
      rw [ih]
      intro q hq
      exact h q (List.mem_cons_of_mem _ hq)

/-- `setCaltValue` replaces the value of the first "calt" entry in place and
touches nothing else. -/
theorem setCaltValue_of_first_calt (v x : Nat) (l r : List (String × Nat))
    (h : ∀ p ∈ l, p.1 ≠ "calt") :
    setCaltValue v (l ++ ("calt", x) :: r) = l ++ ("calt", v) :: r := by
  induction l with
  | nil => simp [setCaltValue]
  | cons p rest ih =>
      obtain ⟨tag, y⟩ := p
      have htag : tag ≠ "calt" := h (tag, y) (List.mem_cons_self _ _)
      simp only [List.cons_append, setCaltValue, if_neg htag, List.append_eq]
      rw [ih]
      intro q hq
      exact h q (List.mem_cons_of_mem _ hq)

end ZedEditor

namespace ZedSsh

/-- C2: for every state of `SshPrompt` and every `set_prompt` call, afterwards
the new prompt is the single pending one, the status message is cleared, and
the responder of any previously pending prompt is exactly the one dropped (its
waiter observes cancellation, never a stale answer). -/
theorem set_prompt_single_pending (s : SshPromptState) (p : String) (tx : Nat) :
    (s.set_prompt p tx).1.prompt = some (p, tx) ∧
    (s.set_prompt p tx).1.status_message = none ∧
    (s.set_prompt p tx).2 = s.prompt.map (fun q => q.2) := by
  unfold SshPromptState.set_prompt
  by_cases h : strContains p "yes/no" = true
  · simp [h]
  · simp [h]

/-- C6: `confirm` with a pending prompt takes its responder, delivers the
current editor text to it, clears the editor buffer and clears the pending
prompt (status untouched); with no pending prompt it changes nothing and
delivers nothing. -/
theorem confirm_spec (s : SshPromptState) :
    (s.prompt = none → s.confirm = (s, none)) ∧
    (∀ m tx, s.prompt = some (m, tx) →
      (s.confirm.1.prompt = none ∧
       s.confirm.1.editor_text = "" ∧
       s.confirm.1.status_message = s.status_message ∧
       s.confirm.1.host = s.host ∧
       s.confirm.1.editor_redacted = s.editor_redacted ∧
       s.confirm.2 = some (tx, s.editor_text))) := by
  constructor
  · intro h
    unfold SshPromptState.confirm
    rw [h]
  · intro m tx h
    unfold SshPromptState.confirm
    rw [h]
    simp

/-- Witness for C6 at a concrete state with a pending prompt. -/
theorem confirm_spec_witness :
    let s : SshPromptState :=
      { host := "h", status_message := some "st", prompt := some ("Password:", 7)
        editor_text := "hunter2", editor_redacted := true }
    s.prompt = some ("Password:", 7) ∧
    (s.confirm.1.prompt = none ∧
     s.confirm.1.editor_text = "" ∧
     s.confirm.1.status_message = s.status_message ∧
     s.confirm.1.host = s.host ∧
     s.confirm.1.editor_redacted = s.editor_redacted ∧
     s.confirm.2 = some (7, "hunter2")) := by
  refine ⟨rfl, ?_⟩
  exact (confirm_spec _).2 "Password:" 7 rfl

/-- C7: `set_status` replaces only the status message; the pending prompt (and
its responder), the editor state and the host are all unchanged. -/
theorem set_status_frame (s : SshPromptState) (st : Option String) :
    (s.set_status st).status_message = st ∧
    (s.set_status st).prompt = s.prompt ∧
    (s.set_status st).editor_text = s.editor_text ∧
    (s.set_status st).editor_redacted = s.editor_redacted ∧
    (s.set_status st).host = s.host := by
  unfold SshPromptState.set_status
  simp

/-- C8: after `set_prompt`, operator input is redacted iff the prompt message
does not contain "yes/no". -/
theorem set_prompt_redaction (s : SshPromptState) (p : String) (tx : Nat) :
    (s.set_prompt p tx).1.editor_redacted = !(strContains p "yes/no") := by
  unfold SshPromptState.set_prompt
  by_cases h : strContains p "yes/no" = true
  · simp [h]
  · simp at h
    simp [h]

/-- C1 (code behaviour at the failing input): with a pre-supplied password,
`ask_password` answers the *second* call from the cache as well, and the cached
password is still present afterwards — `take()` acts on a local clone, so the
cache is never consumed.  This contradicts the claim that the second call is
forwarded to the operator. -/
theorem ask_password_replays_cached_password :
    let d : SshClientDelegateState := { known_password := some "secret1" }
    let r1 := d.ask_password "Password:"
    let r2 := r1.1.ask_password "One-time code:"
    r1.2 = AskPasswordOutcome.answered "secret1" ∧
    r2.2 = AskPasswordOutcome.answered "secret1" ∧
    r2.1.known_password = some "secret1" := by
  exact ⟨rfl, rfl, rfl⟩

/-- C4: in a development build (debug assertions on, `Dev` release channel)
with the requested platform's os and arch equal to the host's, resolution runs
build, strip, compress in exactly that order, aborts with a build error at the
first failing step (no compress attempted when strip fails), never queries the
release-fetch path, and on success returns the local artifact path with the
running application's version. -/
theorem dev_build_branch (env : ResolveEnv) (platform : SshPlatform)
    (hd : env.debug_assertions = true) (hc : env.release_channel = ReleaseChannel.Dev)
    (ha : platform.arch = env.local_arch) (ho : platform.os = env.local_os) :
    (get_server_binary_impl env platform).fetches = [] ∧
    (get_server_binary_impl env platform).statuses =
      ["building remote server binary from source"] ∧
    (env.cargo_build_ok = false →
      (get_server_binary_impl env platform).cmds = [Cmd.cargoBuild] ∧
      (get_server_binary_impl env platform).result =
        Except.error (BinError.buildFailed Cmd.cargoBuild)) ∧
    (env.cargo_build_ok = true → env.strip_ok = false →
      (get_server_binary_impl env platform).cmds = [Cmd.cargoBuild, Cmd.strip] ∧
      (get_server_binary_impl env platform).result =
        Except.error (BinError.buildFailed Cmd.strip)) ∧
    (env.cargo_build_ok = true → env.strip_ok = true → env.gzip_ok = false →
      (get_server_binary_impl env platform).cmds =
        [Cmd.cargoBuild, Cmd.strip, Cmd.gzip] ∧
      (get_server_binary_impl env platform).result =
        Except.error (BinError.buildFailed Cmd.gzip)) ∧
    (env.cargo_build_ok = true → env.strip_ok = true → env.gzip_ok = true →
      (get_server_binary_impl env platform).cmds =
        [Cmd.cargoBuild, Cmd.strip, Cmd.gzip] ∧
      (get_server_binary_impl env platform).result =
        Except.ok (env.current_dir ++ "/target/debug/remote_server.gz",
          env.app_version)) := by
  unfold get_server_binary_impl
  rw [if_pos ⟨hd, hc, ha, ho⟩]
  rcases hb : env.cargo_build_ok <;> rcases hs : env.strip_ok <;>
    rcases hg : env.gzip_ok <;> simp

/-- Witness for C4: dev build, matching platform, strip fails — build and strip
run (in that order), gzip is never attempted, and the result is a build error
naming strip. -/
theorem dev_build_branch_witness :
    let env : ResolveEnv :=
      { debug_assertions := true, release_channel := ReleaseChannel.Dev
        app_version := (0, 143, 5), local_os := "linux", local_arch := "x86_64"
        current_dir := "/home/dev/zed", cargo_build_ok := true, strip_ok := false
        gzip_ok := true, fetch_result := Except.ok "unused" }
    let platform : SshPlatform := { os := "linux", arch := "x86_64" }
    (get_server_binary_impl env platform).fetches = [] ∧
    (get_server_binary_impl env platform).cmds = [Cmd.cargoBuild, Cmd.strip] ∧
    (get_server_binary_impl env platform).result =
      Except.error (BinError.buildFailed Cmd.strip) := by
  intro env platform
  have h := dev_build_branch env platform rfl rfl rfl rfl
  exact ⟨h.1, (h.2.2.2.1 rfl rfl).1, (h.2.2.2.1 rfl rfl).2⟩

/-- C5: whenever the local-build branch is not taken (not a development build,
or the requested platform differs from the host), resolution runs no local
build step, emits the "checking for latest version" status, queries the
release fetcher exactly once with the requested platform's os/arch and the
release channel, returns the fetched path with the version read from the app,
and propagates a lookup failure as-is. -/
theorem release_fetch_branch (env : ResolveEnv) (platform : SshPlatform)
    (h : ¬(env.debug_assertions = true ∧ env.release_channel = ReleaseChannel.Dev ∧
      platform.arch = env.local_arch ∧ platform.os = env.local_os)) :
    (get_server_binary_impl env platform).cmds = [] ∧
    (get_server_binary_impl env platform).statuses =
      ["checking for latest version of remote server"] ∧
    (get_server_binary_impl env platform).fetches =
      [(platform.os, platform.arch, env.release_channel)] ∧
    (∀ p, env.fetch_result = Except.ok p →
      (get_server_binary_impl env platform).result =
        Except.ok (p, env.app_version)) ∧
    (∀ e, env.fetch_result = Except.error e →
      (get_server_binary_impl env platform).result =
        Except.error (BinError.fetchFailed e)) := by
  unfold get_server_binary_impl
  rw [if_neg h]
  rcases hf : env.fetch_result with e | p <;> simp

/-- C3 counterexample: with every earlier step succeeding and a single path
whose worktree setup fails, `open_ssh_project` aborts with the worktree error
but the window opened for the attempt is NOT removed — refuting the claim that
a post-connection worktree setup failure tears the window down. -/
theorem open_ssh_project_worktree_failure_keeps_window :
    let env : OpenEnv :=
      { options_ok := true, open_window_ok := true, window_update_ok := true
        connect_result := Except.ok (), project_ok := true
        replace_root_ok := true, activate_ok := true }
    (open_ssh_project env [false]).result =
      Except.error (OpenError.worktreeFailed 0) ∧
    (open_ssh_project env [false]).window_opened = true ∧
    (open_ssh_project env [false]).window_removed = false := by
  exact ⟨rfl, rfl, rfl⟩

/-- C3 amended: once a window has been opened for the attempt, a handshake
failure aborts the attempt with the error AND removes the window; a
post-connection failure (project creation, any worktree setup, the final view
swap or activation) aborts the attempt with the error but leaves the window in
place.  In every case the attempt aborts — no partial multi-path success. -/
theorem open_ssh_project_failure_policy (env : OpenEnv) (paths : List Bool)
    (h1 : env.options_ok = true) (h2 : env.open_window_ok = true)
    (h3 : env.window_update_ok = true) :
    (∀ e, env.connect_result = Except.error e →
      open_ssh_project env paths =
        { window_opened := true, window_removed := true
          result := Except.error (OpenError.connectFailed e) }) ∧
    (env.connect_result = Except.ok () → env.project_ok = false →
      open_ssh_project env paths =
        { window_opened := true, window_removed := false
          result := Except.error OpenError.projectFailed }) ∧
    (env.connect_result = Except.ok () → env.project_ok = true →
      ∀ i, firstFailure paths = some i →
      open_ssh_project env paths =
        { window_opened := true, window_removed := false
          result := Except.error (OpenError.worktreeFailed i) }) ∧
    (env.connect_result = Except.ok () → env.project_ok = true →
      firstFailure paths = none → env.replace_root_ok = false →
      open_ssh_project env paths =
        { window_opened := true, window_removed := false
          result := Except.error OpenError.replaceRootFailed }) := by
  unfold open_ssh_project
  rw [h1, h2, h3]
  refine ⟨?_, ?_, ?_, ?_⟩
  · intro e he
    rw [he]
    simp
  · intro hc hp
    rw [hc, hp]
    simp
  · intro hc hp i hi
    rw [hc, hp, hi]
    simp
  · intro hc hp hi hr
    rw [hc, hp, hi, hr]
    simp

/-- Witness for C3 amended, at a concrete environment where the handshake
fails: the attempt aborts with the handshake error and the window is
removed. -/
theorem open_ssh_project_failure_policy_witness :
    let env : OpenEnv :=
      { options_ok := true, open_window_ok := true, window_update_ok := true
        connect_result := Except.error "auth failed", project_ok := true
        replace_root_ok := true, activate_ok := true }
    open_ssh_project env [true, true] =
      { window_opened := true, window_removed := true
        result := Except.error (OpenError.connectFailed "auth failed") } := by
  intro env
  exact (open_ssh_project_failure_policy env [true, true] rfl rfl rfl).1
    "auth failed" rfl

/-- Witness for C5: a stable build requesting linux/x86_64 — no local command
runs, the fetcher is called exactly once with the requested platform and
channel, and the fetched path is returned with the app version. -/
theorem release_fetch_branch_witness :
    let env : ResolveEnv :=
      { debug_assertions := false, release_channel := ReleaseChannel.Stable
        app_version := (0, 143, 5), local_os := "linux", local_arch := "x86_64"
        current_dir := "/home/dev/zed", cargo_build_ok := true, strip_ok := true
        gzip_ok := true, fetch_result := Except.ok "/tmp/zed-remote-server.gz" }
    let platform : SshPlatform := { os := "linux", arch := "x86_64" }
    (get_server_binary_impl env platform).cmds = [] ∧
    (get_server_binary_impl env platform).fetches =
      [("linux", "x86_64", ReleaseChannel.Stable)] ∧
    (get_server_binary_impl env platform).result =
      Except.ok ("/tmp/zed-remote-server.gz", (0, 143, 5)) := by
  intro env platform
  have h := release_fetch_branch env platform (by simp)
  exact ⟨h.1, h.2.2.1, h.2.2.2.1 "/tmp/zed-remote-server.gz" rfl⟩

end ZedSsh

namespace ZedEditor

/-- C9: `InlineGitBlameControl::apply` with no existing `inline_blame` entry
creates one whose `enabled` field is `false` regardless of the supplied value
(for any `Default` record); with an existing entry, it sets that entry's
`enabled` field to the supplied value and changes nothing else. -/
theorem inline_git_blame_apply_spec (defaults : InlineBlameSettings)
    (value : Bool) :
    ((InlineGitBlameControl.apply defaults none value).map
        (fun ib => ib.enabled) = some false) ∧
    (∀ ib, InlineGitBlameControl.apply defaults (some ib) value =
      some { ib with enabled := value }) := by
  constructor
  · rfl
  · intro ib
    rfl

/-- C10: `BufferFontLigaturesControl::apply` writes 1 for `true` and 0 for
`false` into the first "calt" entry of the feature list, updating it in place
when it exists and appending one otherwise, while every other entry keeps its
tag, its value and its position. -/
theorem buffer_font_ligatures_apply_spec
    (features : List (String × Nat)) (value : Bool) :
    ((∀ p ∈ features, p.1 ≠ "calt") →
      BufferFontLigaturesControl.apply (some features) value =
        some (features ++ [("calt", if value then 1 else 0)])) ∧
    (∀ l x r, features = l ++ ("calt", x) :: r → (∀ p ∈ l, p.1 ≠ "calt") →
      BufferFontLigaturesControl.apply (some features) value =
        some (l ++ ("calt", if value then 1 else 0) :: r)) := by
  constructor
  · intro h
    unfold BufferFontLigaturesControl.apply
    simp only [Option.getD]
    rw [setCaltValue_of_no_calt _ _ h]
  · intro l x r hsplit h
    unfold BufferFontLigaturesControl.apply
    simp only [Option.getD]
    rw [hsplit, setCaltValue_of_first_calt _ _ _ _ h]

/-- Witness for C10 at a concrete list with a duplicate "calt" entry: only the
first "calt" entry is rewritten, everything else (the preceding "liga" entry
and the later duplicate) is untouched. -/
theorem buffer_font_ligatures_apply_spec_witness :
    BufferFontLigaturesControl.apply
        (some [("liga", 1), ("calt", 0), ("calt", 7)]) true =
      some [("liga", 1), ("calt", 1), ("calt", 7)] := by
  have h := (buffer_font_ligatures_apply_spec
    [("liga", 1), ("calt", 0), ("calt", 7)] true).2
    [("liga", 1)] 0 [("calt", 7)] rfl (by simp)
  simpa using h

end ZedEditor
